import Mathlib

/-!
Verification development for the eduvulcan token fetcher add-on
(`app/main.py`, `app/api.py`).

The Python source is shallowly embedded: pure helpers become Lean
functions, the refresh operation becomes explicit state passing over the
persisted token file, and the two concurrent entry points (the watchdog
loop and the HTTP trigger) become a small labelled transition system.
Python integers are modelled as `Int`, byte strings as lists of byte
values, and raised-then-caught exceptions as `Option`/`Except`.
-/

namespace EduVulcan

/-! ### JSON values

Model of the Python objects produced by `json.loads`.  JSON numbers are
modelled as integers (every claim-relevant payload carries only integer
claims such as `exp`); byte strings are treated as sequences of ASCII
code points, which covers every token and payload the add-on handles.
-/

inductive Json where
  | null : Json
  | bool : Bool → Json
  | num : Int → Json
  | str : String → Json
  | arr : List Json → Json
  | obj : List (String × Json) → Json

/-- Python truthiness (`bool(x)`) of a JSON value: `None`, `False`, `0`,
`""`, `[]` and `{}` are falsy, everything else truthy. -/
def pyTruthy : Json → Bool
  | .null => false
  | .bool b => b
  | .num n => n != 0
  | .str s => s != ""
  | .arr xs => !xs.isEmpty
  | .obj kvs => !kvs.isEmpty

/-- First-match lookup in an association list (dict lookup; parsed JSON
objects have unique keys). -/
def lookupKV : List (String × Json) → String → Option Json
  | [], _ => none
  | (k, v) :: rest, key => if k = key then some v else lookupKV rest key

/-- Python subscript `j[k]` on a JSON value: returns the value when `j`
is a dict containing `k`; `none` models the `KeyError`/`TypeError`
raised otherwise. -/
def py_subscript (j : Json) (k : String) : Option Json :=
  match j with
  | .obj kvs => lookupKV kvs k
  | _ => none

/-- Python `j.get(k)` on a JSON value: `none` models the
`AttributeError` raised when `j` is not a dict; a missing key yields
`some .null` (Python `None`), mirroring `dict.get`. -/
def py_get (j : Json) (k : String) : Option Json :=
  match j with
  | .obj kvs =>
    match lookupKV kvs k with
    | some v => some v
    | none => some .null
  | _ => none

/-- Python subscript `j[0]`: head of a list, first character of a
nonempty string; `none` models the exception raised on every other
shape (including `""[0]`). -/
def py_index0 (j : Json) : Option Json :=
  match j with
  | .arr (x :: _) => some x
  | .str s =>
    match s.data with
    | c :: _ => some (.str (String.mk [c]))
    | [] => none
  | _ => none

/-! ### JSON parsing (`json.loads`)

A fuel-indexed recursive-descent parser over the character list of the
input.  It covers the JSON fragment the add-on exchanges: objects,
arrays, strings with the single-character escapes, integer numbers and
the three keywords.  (Floating-point literals and `\u` escapes, which
never occur in the token payloads in scope, are not modelled and make
the parse fail.)
-/

def lbrace : Char := Char.ofNat 123

def rbrace : Char := Char.ofNat 125

def isWsChar (c : Char) : Bool :=
  c = ' ' || c = '\t' || c = '\n' || c = '\r'

def skipWs : List Char → List Char
  | [] => []
  | c :: rest => if isWsChar c then skipWs rest else c :: rest

/-- Single-character JSON string escapes (`\"`, `\\`, `\/`, `\b`, `\f`,
`\n`, `\r`, `\t`). -/
def escChar (c : Char) : Option Char :=
  if c = '"' then some '"'
  else if c = '\\' then some '\\'
  else if c = '/' then some '/'
  else if c = 'b' then some (Char.ofNat 8)
  else if c = 'f' then some (Char.ofNat 12)
  else if c = 'n' then some '\n'
  else if c = 'r' then some '\r'
  else if c = 't' then some '\t'
  else none

/-- Body of a JSON string after the opening quote: characters up to the
closing quote, applying escapes. -/
def parseStringBody : List Char → Option (String × List Char)
  | [] => none
  | c :: rest =>
    if c = '"' then some ("", rest)
    else if c = '\\' then
      match rest with
      | [] => none
      | e :: rest2 =>
        match escChar e with
        | none => none
        | some ec =>
          match parseStringBody rest2 with
          | none => none
          | some (s, r) => some (String.mk (ec :: s.data), r)
    else
      match parseStringBody rest with
      | none => none
      | some (s, r) => some (String.mk (c :: s.data), r)

def digitVal (c : Char) : Nat := c.toNat - 48

def takeDigits : List Char → List Char × List Char
  | [] => ([], [])
  | c :: rest =>
    if c.isDigit then
      let (ds, r) := takeDigits rest
      (c :: ds, r)
    else ([], c :: rest)

def digitsToNat (ds : List Char) : Nat :=
  ds.foldl (fun acc c => acc * 10 + digitVal c) 0

/-- Nonempty digit run parsed as a natural number. -/
def parseNatNum (cs : List Char) : Option (Nat × List Char) :=
  match takeDigits cs with
  | ([], _) => none
  | (ds, r) => some (digitsToNat ds, r)

/-- JSON number literal (integer fragment). -/
def parseNumber (cs : List Char) : Option (Json × List Char) :=
  match cs with
  | '-' :: rest =>
    match parseNatNum rest with
    | none => none
    | some (n, r) => some (.num (-(n : Int)), r)
  | _ =>
    match parseNatNum cs with
    | none => none
    | some (n, r) => some (.num (n : Int), r)

mutual

/-- One JSON value; `fuel` bounds the recursion depth and is chosen
large enough by `Json.parse` for any input it is given. -/
def parseValue : Nat → List Char → Option (Json × List Char)
  | 0, _ => none
  | fuel + 1, cs =>
    match skipWs cs with
    | [] => none
    | c :: rest =>
      if c = '"' then
        match parseStringBody rest with
        | none => none
        | some (s, r) => some (.str s, r)
      else if c = 'n' then
        match rest with
        | 'u' :: 'l' :: 'l' :: r => some (.null, r)
        | _ => none
      else if c = 't' then
        match rest with
        | 'r' :: 'u' :: 'e' :: r => some (.bool true, r)
        | _ => none
      else if c = 'f' then
        match rest with
        | 'a' :: 'l' :: 's' :: 'e' :: r => some (.bool false, r)
        | _ => none
      else if c = '[' then
        match skipWs rest with
        | [] => none
        | c2 :: r2 =>
          if c2 = ']' then some (.arr [], r2)
          else
            match parseItems fuel (c2 :: r2) with
            | none => none
            | some (xs, r3) => some (.arr xs, r3)
      else if c = lbrace then
        match skipWs rest with
        | [] => none
        | c2 :: r2 =>
          if c2 = rbrace then some (.obj [], r2)
          else
            match parseMembers fuel (c2 :: r2) with
            | none => none
            | some (kvs, r3) => some (.obj kvs, r3)
      else if c.isDigit || c = '-' then parseNumber (c :: rest)
      else none

/-- Comma-separated array items up to the closing bracket. -/
def parseItems : Nat → List Char → Option (List Json × List Char)
  | 0, _ => none
  | fuel + 1, cs =>
    match parseValue fuel cs with
    | none => none
    | some (v, r) =>
      match skipWs r with
      | [] => none
      | c :: r2 =>
        if c = ']' then some ([v], r2)
        else if c = ',' then
          match parseItems fuel r2 with
          | none => none
          | some (vs, r3) => some (v :: vs, r3)
        else none

/-- Comma-separated object members up to the closing brace. -/
def parseMembers : Nat → List Char → Option (List (String × Json) × List Char)
  | 0, _ => none
  | fuel + 1, cs =>
    match skipWs cs with
    | '"' :: rest =>
      match parseStringBody rest with
      | none => none
      | some (k, r) =>
        match skipWs r with
        | ':' :: r2 =>
          match parseValue fuel r2 with
          | none => none
          | some (v, r3) =>
            match skipWs r3 with
            | [] => none
            | c :: r4 =>
              if c = rbrace then some ([(k, v)], r4)
              else if c = ',' then
                match parseMembers fuel r4 with
                | none => none
                | some (kvs, r5) => some ((k, v) :: kvs, r5)
              else none
        | _ => none
    | _ => none

end

/-- Model of `json.loads` on a text input: parse a single value and
require only whitespace to remain. -/
def Json.parse (s : String) : Option Json :=
  match parseValue (4 * s.data.length + 4) s.data with
  | none => none
  | some (j, rest) => if skipWs rest = [] then some j else none

/-! ### base64url decoding (`base64.urlsafe_b64decode`)

The urlsafe alphabet maps `A`–`Z`, `a`–`z`, `0`–`9`, `-`, `_` to the 64
sextet values.  Mirroring the CPython decoder with `validate=False`,
characters outside the alphabet (other than the `=` pad) are discarded,
the remaining length must be a multiple of 4, and the data is consumed
in quads, with `=` permitted only as the final one or two characters.
-/

/-- Sextet value of a urlsafe-base64 alphabet character. -/
def b64UrlVal (c : Char) : Option Nat :=
  if 'A' ≤ c ∧ c ≤ 'Z' then some (c.toNat - 65)
  else if 'a' ≤ c ∧ c ≤ 'z' then some (c.toNat - 97 + 26)
  else if '0' ≤ c ∧ c ≤ '9' then some (c.toNat - 48 + 52)
  else if c = '-' then some 62
  else if c = '_' then some 63
  else none

def b64Byte1 (a b : Nat) : Nat := a * 4 + b / 16

def b64Byte2 (b c : Nat) : Nat := b % 16 * 16 + c / 4

def b64Byte3 (c d : Nat) : Nat := c % 4 * 64 + d

/-- Decode a run of base64 quads into byte values; `=` may appear only
as padding in the final quad. -/
def b64DecodeGroups : List Char → Option (List Nat)
  | [] => some []
  | a :: b :: c :: d :: rest =>
    match b64UrlVal a, b64UrlVal b with
    | some va, some vb =>
      if c = '=' then
        if d = '=' ∧ rest = [] then some [b64Byte1 va vb] else none
      else
        match b64UrlVal c with
        | some vc =>
          if d = '=' then
            if rest = [] then some [b64Byte1 va vb, b64Byte2 vb vc] else none
          else
            match b64UrlVal d with
            | some vd =>
              match b64DecodeGroups rest with
              | some bs => some (b64Byte1 va vb :: b64Byte2 vb vc :: b64Byte3 vc vd :: bs)
              | none => none
            | none => none
        | none => none
    | _, _ => none
  | _ => none

/-- Model of `base64.urlsafe_b64decode`: drop characters outside the
alphabet-plus-pad, require a length divisible by 4 (`binascii.Error:
Incorrect padding` otherwise), then decode the quads. -/
def urlsafe_b64decode (s : String) : Option (List Nat) :=
  let cs := s.data.filter (fun c => (b64UrlVal c).isSome || c = '=')
  if cs.length % 4 = 0 then b64DecodeGroups cs else none

/-- Byte values read back as text, as `json.loads` does on a byte
input; the add-on's payloads are ASCII, where this is exact. -/
def bytesToString (bs : List Nat) : String :=
  String.mk (bs.map Char.ofNat)

/-! ### `decode_jwt_payload` (main.py lines 26–30) -/

/-- Python `str.split(".")`: always at least one (possibly empty)
segment. -/
def splitDot : List Char → List (List Char)
  | [] => [[]]
  | c :: rest =>
    if c = '.' then [] :: splitDot rest
    else
      match splitDot rest with
      | s :: ss => (c :: s) :: ss
      | [] => [[c]]

/-- Pad length appended by `payload += "=" * (-len(payload) % 4)`;
Python `%` on a positive modulus is Euclidean, as is Lean's `Int.emod`. -/
def padLength (n : Nat) : Nat := ((-(n : Int)) % 4).toNat

/-- Padding formula as the spec words it: `(4 - len % 4) % 4`. -/
def specPadLength (n : Nat) : Nat := (4 - n % 4) % 4

/-- Model of `decode_jwt_payload`: take segment `[1]` of the dot-split
(`none` models the `IndexError` when absent), append `=` padding,
base64url-decode, and parse the bytes as JSON. -/
def decode_jwt_payload (jwt : String) : Option Json :=
  match (splitDot jwt.data).get? 1 with
  | none => none
  | some payload =>
    let padded := String.mk (payload ++ List.replicate (padLength payload.length) '=')
    match urlsafe_b64decode padded with
    | none => none
    | some bytes => Json.parse (bytesToString bytes)

/-! ### `token_validity` (main.py lines 44–55) -/

/-- Refresh safety margin in seconds (main.py line 23). -/
def REFRESH_MARGIN : Int := 300

/-- Python `int(x)` on a string: optional surrounding whitespace, an
optional sign, then a nonempty digit run. -/
def int_of_string (s : String) : Option Int :=
  let cs := (s.data.dropWhile isWsChar).reverse.dropWhile isWsChar |>.reverse
  match cs with
  | '-' :: ds =>
    match takeDigits ds with
    | (d :: dt, []) => some (-(digitsToNat (d :: dt) : Int))
    | _ => none
  | '+' :: ds =>
    match takeDigits ds with
    | (d :: dt, []) => some ((digitsToNat (d :: dt) : Int))
    | _ => none
  | ds =>
    match takeDigits ds with
    | (d :: dt, []) => some ((digitsToNat (d :: dt) : Int))
    | _ => none

/-- Python `int(x)` on a JSON value: numbers pass through, booleans
become 0/1, numeric strings are converted, everything else raises
(`none`). -/
def pyToInt : Json → Option Int
  | .num n => some n
  | .bool b => some (if b then 1 else 0)
  | .str s => int_of_string s
  | _ => none

/-- The `exp` extraction inside `token_validity`'s `try` block:
`int(token_data["jwt_payload"]["exp"])`; `none` models any raised
exception. -/
def tvDecodedExp (token_data : Json) : Option Int :=
  (py_subscript token_data "jwt_payload").bind fun payload =>
    (py_subscript payload "exp").bind fun e => pyToInt e

/-- Model of `token_validity`: returns
`(is_valid, exp_ts, seconds_left)`, and `(False, 0, 0)` when the
extraction raises.  `now` stands for `int(time.time())`. -/
def token_validity (token_data : Json) (now : Int) : Bool × Int × Int :=
  match tvDecodedExp token_data with
  | some exp =>
    let seconds_left := exp - now
    (decide (seconds_left > REFRESH_MARGIN), exp, seconds_left)
  | none => (false, 0, 0)

/-! ### `fetch_new_token` (main.py lines 58–153)

The browser-automation part (Playwright, login form, captcha wait) is
the external SessionAcquirer: it either raises (any of its failure
modes) or yields the string value of the `#ap` element.  Everything
from `json.loads(token_json)` on is embedded from the source.  The
persisted token file is threaded through explicitly, and the final
`context.storage_state(path=STORAGE_FILE)` call is abstracted by a
boolean saying whether that write succeeds.
-/

/-- Exceptions that can escape `fetch_new_token`, by raise site. -/
inductive FetchErr where
  /-- Playwright/login failure anywhere before the `#ap` read. -/
  | acquirer : FetchErr
  /-- `json.loads(token_json)` raised. -/
  | badJson : FetchErr
  /-- `data.get("Tokens")` raised (`data` is not a dict). -/
  | notDict : FetchErr
  /-- `tokens[0]` raised (truthy non-subscriptable `Tokens`). -/
  | indexErr : FetchErr
  /-- `raise RuntimeError("Brak JWT w polu Tokens[]")`. -/
  | noJwt : FetchErr
  /-- `jwt.split(".")` raised (`jwt` is not a string). -/
  | jwtNotStr : FetchErr
  /-- `decode_jwt_payload` raised. -/
  | decodeFail : FetchErr
  /-- `payload.get("tenant")` raised (payload is not a dict). -/
  | payloadNotDict : FetchErr
  /-- `raise RuntimeError("Nie udało się odczytać tenant z JWT")`. -/
  | noTenant : FetchErr
  /-- `context.storage_state(path=STORAGE_FILE)` raised. -/
  | storageFail : FetchErr
deriving DecidableEq

/-- The token record written to `/config/eduvulcan_token.json`
(main.py lines 133–139). -/
structure Output where
  tenant : Json
  jwt : String
  jwt_payload : Json
  fetched_at : String
  source : String

/-- Lines 120–130: parse the `#ap` value, pick `Tokens[0]`, decode its
payload, and require a truthy `tenant` claim. -/
def extract_token (token_json : String) : Except FetchErr (String × Json × Json) :=
  match Json.parse token_json with
  | none => .error .badJson
  | some data =>
    match py_get data "Tokens" with
    | none => .error .notDict
    | some tokensRaw =>
      let tokens := if pyTruthy tokensRaw then tokensRaw else .arr []
      if pyTruthy tokens then
        match py_index0 tokens with
        | none => .error .indexErr
        | some jwt =>
          if pyTruthy jwt then
            match jwt with
            | .str s =>
              match decode_jwt_payload s with
              | none => .error .decodeFail
              | some payload =>
                match py_get payload "tenant" with
                | none => .error .payloadNotDict
                | some tenant =>
                  if pyTruthy tenant then .ok (s, payload, tenant)
                  else .error .noTenant
            | _ => .error .jwtNotStr
          else .error .noJwt
      else .error .noJwt

/-- Model of `fetch_new_token`.  `acquired` is the SessionAcquirer
outcome, `storage_ok` whether the session-state write succeeds,
`fetched_at` the `datetime.now(timezone.utc).isoformat()` value, and
`file` the persisted token record before the call.  Returns the
operation's outcome, the token file after the call, and whether the
session state got persisted. -/
def fetch_new_token (acquired : Except Unit String) (storage_ok : Bool)
    (fetched_at : String) (file : Option Output) :
    Except FetchErr Output × Option Output × Bool :=
  match acquired with
  | .error _ => (.error .acquirer, file, false)
  | .ok token_json =>
    match extract_token token_json with
    | .error e => (.error e, file, false)
    | .ok (jwt, payload, tenant) =>
      let out : Output :=
        { tenant := tenant, jwt := jwt, jwt_payload := payload,
          fetched_at := fetched_at, source := "eduvulcan.pl/api/ap" }
      if storage_ok then (.ok out, some out, true)
      else (.error .storageFail, some out, false)

/-! ### `watchdog_loop` (main.py lines 156–189), one iteration -/

/-- What one loop iteration does before the next check. -/
inductive LoopStep where
  /-- Token valid: no refresh, sleep this many seconds (line 176). -/
  | sleepOnly : Int → LoopStep
  /-- Refresh attempted and succeeded: sleep 30 (line 189). -/
  | refreshOkSleep30 : LoopStep
  /-- Refresh attempted and failed: sleep 300 (line 185). -/
  | refreshFailSleep300 : LoopStep
deriving DecidableEq

/-- One iteration of `watchdog_loop`.  `token_data` is what
`read_saved_token()` returned (`none` for a missing/corrupt file),
`refresh_ok` whether the `fetch_new_token` call would succeed. -/
def watchdog_iteration (token_data : Option Json) (now : Int)
    (refresh_ok : Bool) : LoopStep :=
  match token_data with
  | some td =>
    if pyTruthy td then
      let v := token_validity td now
      if v.1 then .sleepOnly (max 60 (v.2.2 - REFRESH_MARGIN))
      else if refresh_ok then .refreshOkSleep30 else .refreshFailSleep300
    else if refresh_ok then .refreshOkSleep30 else .refreshFailSleep300
  | none => if refresh_ok then .refreshOkSleep30 else .refreshFailSleep300

/-! ### `main` (main.py lines 192–222) -/

/-- Python truthiness of `os.getenv(...)`: `None` or the empty string
are falsy. -/
def pyStrTruthy : Option String → Bool
  | none => false
  | some s => s != ""

/-- How a `main()` invocation ends. -/
inductive MainOutcome where
  /-- The process returns this exit code; the flag records whether a
  SessionAcquirer invocation was attempted first. -/
  | exitCode : Int → Bool → MainOutcome
  /-- Watchdog mode: the loop runs forever. -/
  | loopForever : MainOutcome
deriving DecidableEq

/-- Model of `main()`: missing credentials return 1 before any
acquisition; `--once` returns 0 on success and 1 on any exception;
otherwise the watchdog loop never returns. -/
def main_run (once : Bool) (login password : Option String)
    (fetch_result : Except FetchErr Output) : MainOutcome :=
  if !pyStrTruthy login || !pyStrTruthy password then .exitCode 1 false
  else if once then
    match fetch_result with
    | .ok _ => .exitCode 0 true
    | .error _ => .exitCode 1 true
  else .loopForever

/-! ### Concurrency model (api.py lines 6–20, main.py lines 156–189)

The add-on runs two independent acquisition entry points: the watchdog
process's loop calls `fetch_new_token` directly (main.py line 181), and
every POST to `/refresh` spawns a fresh `python3 /app/main.py --once`
subprocess (api.py lines 8–12).  Neither path consults any lock, flag
or file before starting, so each start transition below is enabled
unconditionally (the watchdog only guards against itself by being a
sequential loop). -/

structure SysState where
  watchdogAcquiring : Bool
  triggerAcquiring : Bool
deriving DecidableEq

inductive SysEvent where
  | wdStart : SysEvent
  | wdFinish : SysEvent
  | trStart : SysEvent
  | trFinish : SysEvent
deriving DecidableEq

/-- Labelled step relation of the two entry points.  `wdStart` is the
watchdog loop reaching its `fetch_new_token` call (possible whenever
its own previous call has finished — e.g. the stored token is invalid);
`trStart` is the `/refresh` handler spawning `main.py --once`, which
api.py does unconditionally on every request. -/
def sysStep (s : SysState) : SysEvent → Option SysState
  | .wdStart =>
    if s.watchdogAcquiring then none
    else some { s with watchdogAcquiring := true }
  | .wdFinish =>
    if s.watchdogAcquiring then some { s with watchdogAcquiring := false }
    else none
  | .trStart => some { s with triggerAcquiring := true }
  | .trFinish =>
    if s.triggerAcquiring then some { s with triggerAcquiring := false }
    else none

/-- States reachable from the quiescent start (no acquisition in
flight). -/
inductive SysReachable : SysState → Prop
  | init : SysReachable ⟨false, false⟩
  | step {s s' : SysState} (e : SysEvent) :
      SysReachable s → sysStep s e = some s' → SysReachable s'

/-! ### Concrete sample values used in witnesses -/

/-- Whether a refresh outcome is a success. -/
def exceptOk : Except FetchErr Output → Bool
  | .ok _ => true
  | .error _ => false

/-- A stored record whose payload expires at epoch second 400. -/
def sampleRecord : Json :=
  .obj [("jwt_payload", .obj [("exp", .num 400)])]

/-- A stored record whose `exp` claim is a numeric string rather than
an integer. -/
def stringExpRecord : Json :=
  .obj [("jwt_payload", .obj [("exp", .str "9999999999")])]

/-- An `#ap` element value carrying one well-formed token whose payload
is `\x7b"tenant":"x"\x7d`. -/
def sampleTokenJson : String :=
  "\x7b\"Tokens\":[\"h.eyJ0ZW5hbnQiOiJ4In0.s\"]\x7d"

/-- The token record `fetch_new_token` writes for `sampleTokenJson`. -/
def sampleOut : Output :=
  { tenant := .str "x"
    jwt := "h.eyJ0ZW5hbnQiOiJ4In0.s"
    jwt_payload := .obj [("tenant", .str "x")]
    fetched_at := "2026-01-01T00:00:00+00:00"
    source := "eduvulcan.pl/api/ap" }

/-! ## Theorems -/

/-- C1: for every stored token record and current time, the validity
check reports valid if and only if the decoded `exp` claim minus the
current time is strictly greater than `REFRESH_MARGIN` (300 seconds);
when the claims cannot be decoded the result is exactly
`(False, 0, 0)`, and a negative seconds-until-expiry is always judged
invalid. -/
theorem token_validity_valid_iff (td : Json) (now : Int) :
    ((token_validity td now).1 = true ↔
      ∃ exp, tvDecodedExp td = some exp ∧ exp - now > REFRESH_MARGIN) ∧
    (tvDecodedExp td = none → token_validity td now = (false, 0, 0)) ∧
    ((token_validity td now).2.2 < 0 → (token_validity td now).1 = false) := by
  cases h : tvDecodedExp td with
  | none => simp [token_validity, h]
  | some exp =>
    simp only [token_validity, h]
    refine ⟨?_, by simp, ?_⟩
    · simp only [decide_eq_true_eq]
      constructor
      · intro hgt
        exact ⟨exp, rfl, hgt⟩
      · rintro ⟨e, he, hgt⟩
        cases he
        exact hgt
    · intro hneg
      simp only [decide_eq_false_iff_not]
      simp only [REFRESH_MARGIN] at *
      omega

/-- Witness for C1 at a concrete record: a payload expiring at 400
checked at time 0 is valid. -/
theorem token_validity_valid_iff_witness :
    (token_validity sampleRecord 0).1 = true :=
  (token_validity_valid_iff sampleRecord 0).1.mpr ⟨400, rfl, by decide⟩

/-- C10, counterexample: a record whose `exp` is the numeric string
`"9999999999"` — a non-integer `exp` — does not produce
`(False, 0, 0)`: `int()` converts the string and the check reports the
token valid. -/
theorem token_validity_string_exp_counterexample :
    token_validity stringExpRecord 0 = (true, 9999999999, 9999999999) ∧
    token_validity stringExpRecord 0 ≠ (false, 0, 0) := by
  constructor
  · rfl
  · decide

/-- C10, amended: the validity check is total and returns exactly
`(False, 0, 0)` whenever the `exp` extraction raises (missing or
non-dict `jwt_payload`, missing `exp`, or an `exp` value that `int()`
cannot convert); an `exp` that `int()` can convert — including a
numeric string or a boolean — is judged normally instead. -/
theorem token_validity_total_on_malformed (td : Json) (now : Int)
    (h : tvDecodedExp td = none) : token_validity td now = (false, 0, 0) := by
  simp [token_validity, h]

/-- Witness for the amended C10: an empty record yields
`(False, 0, 0)` at any time. -/
theorem token_validity_total_on_malformed_witness :
    token_validity (Json.obj []) 7 = (false, 0, 0) :=
  token_validity_total_on_malformed (Json.obj []) 7 rfl

/-- C5, counterexample: `"a.e30"` has only 2 dot-separated segments,
yet `decode_jwt_payload` succeeds on it (the code never checks the
segment count; segment `[1]` decodes to the empty object). -/
theorem decode_jwt_payload_two_segments_counterexample :
    (splitDot "a.e30".data).length = 2 ∧
    decode_jwt_payload "a.e30" = some (Json.obj []) :=
  ⟨rfl, rfl⟩

/-- C5, amended: the decode fails (IndexError) whenever the string has
fewer than 2 dot-separated segments; it succeeds only when there are
at least 2 segments, segment `[1]` (after padding) base64url-decodes,
and the decoded bytes parse as structured data.  The segment count is
otherwise not constrained. -/
theorem decode_jwt_payload_segments (jwt : String) :
    ((splitDot jwt.data).length < 2 → decode_jwt_payload jwt = none) ∧
    (∀ j, decode_jwt_payload jwt = some j →
      2 ≤ (splitDot jwt.data).length ∧
      ∃ payload bytes,
        (splitDot jwt.data).get? 1 = some payload ∧
        urlsafe_b64decode
          (String.mk (payload ++ List.replicate (padLength payload.length) '=')) =
          some bytes ∧
        Json.parse (bytesToString bytes) = some j) := by
  unfold decode_jwt_payload
  cases h : (splitDot jwt.data).get? 1 with
  | none =>
    refine ⟨fun _ => rfl, fun j hj => ?_⟩
    exact absurd hj (by simp)
  | some payload =>
    have hlen : 1 < (splitDot jwt.data).length := by
      by_contra hc
      rw [List.get?_eq_none.mpr (by omega)] at h
      exact Option.noConfusion h
    refine ⟨fun hlt => absurd hlen (by omega), fun j hj => ⟨hlen, payload, ?_⟩⟩
    dsimp only at hj
    cases hb : urlsafe_b64decode
        (String.mk (payload ++ List.replicate (padLength payload.length) '=')) with
    | none => rw [hb] at hj; exact absurd hj (by simp)
    | some bytes =>
      rw [hb] at hj
      exact ⟨bytes, rfl, rfl, hj⟩

/-- Witness for the amended C5: a dot-free string fails to decode. -/
theorem decode_jwt_payload_segments_witness :
    decode_jwt_payload "nodots" = none :=
  (decode_jwt_payload_segments "nodots").1 (by decide)

/-- C4: one watchdog iteration on a stored (truthy) record sleeps
exactly `max 60 (seconds_left - REFRESH_MARGIN)` without refreshing
when the token is valid, and otherwise refreshes and then sleeps 30
seconds on success and 300 seconds on failure. -/
theorem watchdog_iteration_policy (td : Json) (now : Int) (refresh_ok : Bool)
    (h : pyTruthy td = true) :
    watchdog_iteration (some td) now refresh_ok =
      (if (token_validity td now).1 then
        LoopStep.sleepOnly (max 60 ((token_validity td now).2.2 - REFRESH_MARGIN))
      else if refresh_ok then LoopStep.refreshOkSleep30
      else LoopStep.refreshFailSleep300) := by
  simp [watchdog_iteration, h]

/-- Witness for C4, matching the spec's scenario: a record with
`exp = now + 400` and margin 300 sleeps 100 seconds without a
refresh. -/
theorem watchdog_iteration_policy_witness :
    watchdog_iteration (some sampleRecord) 0 true = LoopStep.sleepOnly 100 := by
  rw [watchdog_iteration_policy sampleRecord 0 true (by decide)]
  decide

/-- C9, counterexample: missing credentials exit with code 1, and a
failed one-shot acquisition also exits with code 1 — the two failure
kinds do not get distinct exit codes. -/
theorem exit_codes_not_distinct_counterexample :
    main_run true none none (.error .acquirer) = .exitCode 1 false ∧
    main_run true (some "user") (some "pw") (.error .acquirer) = .exitCode 1 true :=
  ⟨rfl, rfl⟩

/-- C9, amended: missing credentials make the process exit with code 1
immediately, before any acquisition attempt, in either mode; one-shot
mode surfaces every failure as exit code 1 and success as 0 — the same
code 1 serves ConfigError and acquisition failures. -/
theorem main_exit_codes (login password : Option String)
    (r : Except FetchErr Output) :
    (∀ once, (!pyStrTruthy login || !pyStrTruthy password) = true →
      main_run once login password r = .exitCode 1 false) ∧
    (pyStrTruthy login = true → pyStrTruthy password = true →
      main_run true login password r =
        .exitCode (match r with | .ok _ => 0 | .error _ => 1) true) := by
  constructor
  · intro once hcred
    simp [main_run, hcred]
  · intro hl hp
    cases r with
    | ok out => simp [main_run, hl, hp]
    | error e => simp [main_run, hl, hp]

/-- Witness for the amended C9: with no login set, even loop mode
exits 1 before acquiring. -/
theorem main_exit_codes_witness :
    main_run false none (some "pw") (.error .acquirer) = .exitCode 1 false :=
  (main_exit_codes none (some "pw") (.error .acquirer)).1 false (by decide)

/-- C3, counterexample: a state in which the watchdog loop and a
trigger-spawned one-shot process are both driving a SessionAcquirer
login at the same time is reachable — nothing in the code serializes
the two entry points. -/
theorem concurrent_acquisitions_reachable :
    SysReachable { watchdogAcquiring := true, triggerAcquiring := true } :=
  SysReachable.step .trStart (SysReachable.step .wdStart SysReachable.init rfl) rfl

/-- C3, amended: the HTTP trigger provides no mutual exclusion at all:
in every system state — including while the watchdog's acquisition is
in flight — a `/refresh` request immediately starts another
acquisition. -/
theorem trigger_start_unguarded (s : SysState) :
    sysStep s .trStart = some { s with triggerAcquiring := true } :=
  rfl

/-! ### Helper lemmas for the base64 padding claim -/

theorem b64UrlVal_isSome_ne_pad {c : Char} (h : (b64UrlVal c).isSome) :
    c ≠ '=' := by
  intro heq
  subst heq
  exact absurd h (by decide)

theorem padLength_add_four (n : Nat) : padLength (n + 4) = padLength n := by
  unfold padLength
  omega

/-- Appending the code's padding to an all-alphabet run whose length is
not 1 mod 4 yields a quad run the group decoder accepts. -/
theorem b64DecodeGroups_pad :
    ∀ cs : List Char, (∀ c ∈ cs, (b64UrlVal c).isSome) → cs.length % 4 ≠ 1 →
      (b64DecodeGroups (cs ++ List.replicate (padLength cs.length) '=')).isSome
  | [], _, _ => by decide
  | [a], _, hlen => absurd rfl hlen
  | [a, b], hall, _ => by
    obtain ⟨va, hva⟩ := Option.isSome_iff_exists.mp (hall a (by simp))
    obtain ⟨vb, hvb⟩ := Option.isSome_iff_exists.mp (hall b (by simp))
    have hp : padLength 2 = 2 := by decide
    simp only [List.length_cons, List.length_nil, hp]
    simp [b64DecodeGroups, hva, hvb]
  | [a, b, c], hall, _ => by
    obtain ⟨va, hva⟩ := Option.isSome_iff_exists.mp (hall a (by simp))
    obtain ⟨vb, hvb⟩ := Option.isSome_iff_exists.mp (hall b (by simp))
    obtain ⟨vc, hvc⟩ := Option.isSome_iff_exists.mp (hall c (by simp))
    have hc : c ≠ '=' := b64UrlVal_isSome_ne_pad (hall c (by simp))
    have hp : padLength 3 = 1 := by decide
    simp only [List.length_cons, List.length_nil, hp]
    simp [b64DecodeGroups, hva, hvb, hvc, hc]
  | a :: b :: c :: d :: rest, hall, hlen => by
    obtain ⟨va, hva⟩ := Option.isSome_iff_exists.mp (hall a (by simp))
    obtain ⟨vb, hvb⟩ := Option.isSome_iff_exists.mp (hall b (by simp))
    obtain ⟨vc, hvc⟩ := Option.isSome_iff_exists.mp (hall c (by simp))
    obtain ⟨vd, hvd⟩ := Option.isSome_iff_exists.mp (hall d (by simp))
    have hc : c ≠ '=' := b64UrlVal_isSome_ne_pad (hall c (by simp))
    have hd : d ≠ '=' := b64UrlVal_isSome_ne_pad (hall d (by simp))
    have hall' : ∀ x ∈ rest, (b64UrlVal x).isSome := fun x hx =>
      hall x (by simp [hx])
    have hlen' : rest.length % 4 ≠ 1 := by
      simp only [List.length_cons] at hlen
      omega
    have ih := b64DecodeGroups_pad rest hall' hlen'
    obtain ⟨bs, hbs⟩ := Option.isSome_iff_exists.mp ih
    have hplen : (a :: b :: c :: d :: rest).length = rest.length + 4 := by
      simp only [List.length_cons]
    rw [hplen, padLength_add_four]
    simp [b64DecodeGroups, hva, hvb, hvc, hvd, hc, hd, hbs]

/-- C6: the padding the decoder appends (length `-n % 4` in the code)
matches the spec's `(4 - n % 4) % 4` formula for every middle-segment
length, it always completes the segment to a multiple of 4, and every
valid unpadded base64url middle segment (alphabet characters, length
not 1 mod 4) then decodes successfully. -/
theorem padLength_correct (seg : List Char) :
    padLength seg.length = specPadLength seg.length ∧
    (seg.length + padLength seg.length) % 4 = 0 ∧
    ((∀ c ∈ seg, (b64UrlVal c).isSome) → seg.length % 4 ≠ 1 →
      (urlsafe_b64decode
        (String.mk (seg ++ List.replicate (padLength seg.length) '='))).isSome) := by
  refine ⟨by unfold padLength specPadLength; omega,
          by unfold padLength; omega, ?_⟩
  intro hall hlen
  unfold urlsafe_b64decode
  have hfilter :
      (String.mk (seg ++ List.replicate (padLength seg.length) '=')).data.filter
        (fun c => (b64UrlVal c).isSome || c = '=') =
      seg ++ List.replicate (padLength seg.length) '=' := by
    apply List.filter_eq_self.mpr
    intro c hc
    rcases List.mem_append.mp hc with h | h
    · simp [hall c h]
    · simp [List.eq_of_mem_replicate h]
  dsimp only
  rw [hfilter]
  have hmod : (seg ++ List.replicate (padLength seg.length) '=').length % 4 = 0 := by
    simp only [List.length_append, List.length_replicate]
    unfold padLength
    omega
  rw [if_pos hmod]
  exact b64DecodeGroups_pad seg hall hlen

/-- Witness for C6 at the segment `e30` (length 3): one pad character
is appended and the decode succeeds. -/
theorem padLength_correct_witness :
    (urlsafe_b64decode
      (String.mk ("e30".data ++ List.replicate (padLength "e30".data.length) '='))).isSome :=
  (padLength_correct "e30".data).2.2 (by decide) (by decide)

/-! ### Helper lemmas about token extraction -/

/-- A successful extraction yields a jwt whose decode is the returned
payload and whose `tenant` claim is the returned, truthy tenant. -/
theorem extract_token_ok_spec (tj s : String) (p t : Json)
    (h : extract_token tj = .ok (s, p, t)) :
    decode_jwt_payload s = some p ∧ py_get p "tenant" = some t ∧
    pyTruthy t = true := by
  unfold extract_token at h
  repeat' first
    | split at h
    | (dsimp only at h)
  all_goals simp_all

/-- Extraction never reports the storage-state failure (it happens
before the storage write is reached). -/
theorem extract_token_err_kind (tj : String) (e : FetchErr)
    (h : extract_token tj = .error e) : e ≠ .storageFail := by
  unfold extract_token at h
  repeat' first
    | split at h
    | (dsimp only at h)
  all_goals first
    | (injection h with h2; subst h2; decide)
    | (injection h)

/-- C2: every failing refresh attempt of the enumerated kinds — the
acquirer erroring, the token JSON unusable, no JWT in `Tokens[]`,
claim decode failing, or the tenant claim absent (everything except
the later storage-state write) — leaves the persisted token record
unchanged, and the token file changes only to a record whose JWT was
extracted with a truthy tenant claim. -/
theorem fetch_failure_preserves_file (a : Except Unit String)
    (storage_ok : Bool) (t : String) (file : Option Output) :
    (∀ e, (fetch_new_token a storage_ok t file).1 = .error e →
      e ≠ .storageFail →
      (fetch_new_token a storage_ok t file).2.1 = file) ∧
    ((fetch_new_token a storage_ok t file).2.1 ≠ file →
      ∃ tj jwt payload tenant, a = .ok tj ∧
        extract_token tj = .ok (jwt, payload, tenant) ∧
        pyTruthy tenant = true ∧
        (fetch_new_token a storage_ok t file).2.1 =
          some { tenant := tenant, jwt := jwt, jwt_payload := payload,
                 fetched_at := t, source := "eduvulcan.pl/api/ap" }) := by
  cases a with
  | error u =>
    exact ⟨fun _ _ _ => rfl, fun hch => absurd rfl hch⟩
  | ok tj =>
    cases hx : extract_token tj with
    | error e0 =>
      refine ⟨fun e he hne => by simp [fetch_new_token, hx],
              fun hch => absurd ?_ hch⟩
      simp [fetch_new_token, hx]
    | ok triple =>
      obtain ⟨jwt, payload, tenant⟩ := triple
      have hspec := extract_token_ok_spec tj jwt payload tenant hx
      by_cases hs : storage_ok
      · refine ⟨fun e he hne => ?_, fun hch => ?_⟩
        · simp [fetch_new_token, hx, hs] at he
        · exact ⟨tj, jwt, payload, tenant, rfl, hx, hspec.2.2,
            by simp [fetch_new_token, hx, hs]⟩
      · refine ⟨fun e he hne => ?_, fun hch => ?_⟩
        · simp [fetch_new_token, hx, hs] at he
          exact absurd he.symm hne
        · exact ⟨tj, jwt, payload, tenant, rfl, hx, hspec.2.2,
            by simp [fetch_new_token, hx, hs]⟩

/-- Witness for C2: an acquirer failure leaves a missing token file
missing. -/
theorem fetch_failure_preserves_file_witness :
    (fetch_new_token (.error ()) true "ts" none).2.1 = none :=
  (fetch_failure_preserves_file (.error ()) true "ts" none).1
    .acquirer rfl (by decide)

/-- C7, counterexample: the session state is not persisted after every
acquisition attempt — an attempt whose token extraction fails (here:
token JSON with no `Tokens` entry) skips the storage-state write
entirely; and a failing storage-state write makes the whole refresh
report failure rather than being ignored. -/
theorem session_state_counterexample :
    ((fetch_new_token (.ok "\x7b\x7d") true "ts" none).2.2 = false ∧
     (fetch_new_token (.ok "\x7b\x7d") true "ts" none).1 =
       .error .noJwt) ∧
    (fetch_new_token (.ok sampleTokenJson) false "ts" none).1 =
      .error .storageFail :=
  ⟨⟨rfl, rfl⟩, rfl⟩

/-- C7, amended: session state is persisted exactly when the whole
refresh succeeds — it is skipped on every extraction failure (the
write sits after the token-file write on the success path), and a
storage-state failure is reported as a failure of the refresh (with
the token file already updated). -/
theorem session_state_saved_iff_success (a : Except Unit String)
    (storage_ok : Bool) (t : String) (file : Option Output) :
    (fetch_new_token a storage_ok t file).2.2 =
      exceptOk (fetch_new_token a storage_ok t file).1 := by
  cases a with
  | error u => rfl
  | ok tj =>
    cases hx : extract_token tj with
    | error e => simp [fetch_new_token, hx, exceptOk]
    | ok triple =>
      obtain ⟨jwt, payload, tenant⟩ := triple
      by_cases hs : storage_ok <;> simp [fetch_new_token, hx, hs, exceptOk]

/-- C8: a successful refresh writes a wholesale, internally consistent
record: its `jwt_payload` is the decode of its `jwt`, its `tenant` is
the payload's (truthy) tenant claim, its `fetched_at` is the
refresh-time timestamp, its `source` tag is set, and the file now
holds exactly this record. -/
theorem fetch_success_record_consistent (a : Except Unit String)
    (storage_ok : Bool) (t : String) (file : Option Output) (out : Output)
    (h : (fetch_new_token a storage_ok t file).1 = .ok out) :
    decode_jwt_payload out.jwt = some out.jwt_payload ∧
    py_get out.jwt_payload "tenant" = some out.tenant ∧
    pyTruthy out.tenant = true ∧
    out.fetched_at = t ∧
    out.source = "eduvulcan.pl/api/ap" ∧
    (fetch_new_token a storage_ok t file).2.1 = some out := by
  cases a with
  | error u => exact absurd h (by simp [fetch_new_token])
  | ok tj =>
    cases hx : extract_token tj with
    | error e => exact absurd h (by simp [fetch_new_token, hx])
    | ok triple =>
      obtain ⟨jwt, payload, tenant⟩ := triple
      have hspec := extract_token_ok_spec tj jwt payload tenant hx
      by_cases hs : storage_ok
      · simp only [fetch_new_token, hx, hs, if_true] at h ⊢
        cases h
        exact ⟨hspec.1, hspec.2.1, hspec.2.2, rfl, rfl, rfl⟩
      · exact absurd h (by simp [fetch_new_token, hx, hs])

/-- Witness for C8 on a concrete successful refresh. -/
theorem fetch_success_record_consistent_witness :
    (fetch_new_token (.ok sampleTokenJson) true
      "2026-01-01T00:00:00+00:00" none).2.1 = some sampleOut :=
  (fetch_success_record_consistent (.ok sampleTokenJson) true
    "2026-01-01T00:00:00+00:00" none sampleOut rfl).2.2.2.2.2

end EduVulcan
